import Mathlib

/-
Verification of the manufacturer-enrichment subsystem of the
router-events service. The definitions below are a shallow embedding of
src/router_events/database.py and src/router_events/main.py: timestamps
are seconds as Nat, the record store is a list of device rows keyed by
mac, and the outcome of each outbound provider call is supplied by an
explicit oracle argument.
-/

/-- Manufacturer lookup status, from models.ManufacturerStatus. -/
inductive ManufacturerStatus
  | pending
  | found
  | unknown
  | error
deriving DecidableEq, Repr

/-- Device row, from models.Device. Timestamps are seconds as Nat. -/
structure Device where
  mac : String
  name : Option String := none
  notify : Bool := false
  manufacturer : Option String := none
  manufacturer_status : ManufacturerStatus := .pending
  manufacturer_last_attempt : Option Nat := none
  first_seen : Option Nat := none
  last_seen : Option Nat := none
deriving DecidableEq, Repr

/-- The record store: the devices table, one row per mac. -/
abbrev Store := List Device

/-- Python truthiness of an optional string: None and the empty string
are falsy, every other string is truthy. -/
def optStrTruthy : Option String → Bool
  | none => false
  | some s => decide (s ≠ "")

/-- Python expression a or b where a is an optional string and b a
string: yields a when a is truthy, else b. -/
def pyOr (a : Option String) (b : String) : String :=
  match a with
  | none => b
  | some s => if s = "" then b else s

/-- Python str.strip: drop whitespace from both ends. -/
def pyStrip (s : String) : String :=
  ⟨((s.data.dropWhile Char.isWhitespace).reverse.dropWhile Char.isWhitespace).reverse⟩

/-- Python str.lower, character by character. -/
def pyLower (s : String) : String :=
  ⟨s.data.map Char.toLower⟩

/-- Helper for substring search: does the haystack list contain the
needle list as a contiguous sublist. -/
def listContainsSub (needle : List Char) : List Char → Bool
  | [] => needle.isPrefixOf []
  | c :: t => needle.isPrefixOf (c :: t) || listContainsSub needle t

/-- Python substring test needle in hay. -/
def strContains (hay needle : String) : Bool :=
  listContainsSub needle.data hay.data

/-- Lookup of a device row by primary key, as session.get(Device, mac). -/
def findDevice (s : Store) (mac : String) : Option Device :=
  s.find? (fun d => decide (d.mac = mac))

/-- Replace the first row with the same mac, or append the row. Models a
keyed upsert through the session. -/
def upsertDevice : Store → Device → Store
  | [], d => [d]
  | d₀ :: rest, d => if d₀.mac = d.mac then d :: rest else d₀ :: upsertDevice rest d

/-- Parse of the persisted status string into the enum, as the
ManufacturerStatus(status) constructor call; none models ValueError. -/
def parseStatus : String → Option ManufacturerStatus
  | "pending" => some .pending
  | "found" => some .found
  | "unknown" => some .unknown
  | "error" => some .error
  | _ => none

namespace Database

/-- Embedding of Database.get_manufacturer. -/
def get_manufacturer (s : Store) (mac : String) : Option String :=
  match findDevice s mac with
  | none => none
  | some device =>
    if device.manufacturer_status = .found ∧ optStrTruthy device.manufacturer = true then
      device.manufacturer
    else if device.manufacturer_status = .unknown ∨ device.manufacturer_status = .error then
      some "Unknown"
    else
      none

/-- Embedding of Database.needs_manufacturer_lookup, with the current
time passed explicitly. -/
def needs_manufacturer_lookup (s : Store) (mac : String) (now : Nat) : Bool :=
  match findDevice s mac with
  | none => true
  | some device =>
    if device.manufacturer_status = .found ∧ optStrTruthy device.manufacturer = true then
      false
    else if device.manufacturer_status = .unknown then
      false
    else
      match device.manufacturer_status, device.manufacturer_last_attempt with
      | .error, some lastAttempt => decide (now - lastAttempt > 300)
      | _, _ => true

/-- Embedding of Database.set_manufacturer: an invalid status string is
logged and the store is left untouched; otherwise the row is fetched or
created and its manufacturer fields overwritten. -/
def set_manufacturer (s : Store) (mac : String) (manufacturer : Option String)
    (status : String) (now : Nat) : Store :=
  match parseStatus status with
  | none => s
  | some statusEnum =>
    let device := (findDevice s mac).getD { mac := mac }
    upsertDevice s { device with
      manufacturer := manufacturer,
      manufacturer_status := statusEnum,
      manufacturer_last_attempt := some now }

/-- Embedding of Database.add_device. -/
def add_device (s : Store) (mac : String) (name : Option String) (now : Nat) : Store :=
  match findDevice s mac with
  | some device =>
    upsertDevice s { device with
      last_seen := some now,
      name := if optStrTruthy name = true ∧ optStrTruthy device.name = false
              then name else device.name }
  | none =>
    upsertDevice s { mac := mac, name := name, notify := false,
                     first_seen := some now, last_seen := some now }

end Database

/-- Result of response.json() as used by the parser: invalid models a
ValueError or TypeError from json(), notDict a non-dict JSON value, and
dict carries the company and companyName entries when present. -/
inductive JsonResult
  | invalid
  | notDict
  | dict (company : Option String) (companyName : Option String)
deriving DecidableEq, Repr

/-- Outcome of one outbound provider call: transportErr models a raised
httpx.RequestError or httpx.TimeoutException, reply carries the HTTP
status code and the body in both JSON and text form. -/
inductive ProviderOutcome
  | transportErr
  | reply (statusCode : Nat) (json : JsonResult) (text : String)
deriving DecidableEq, Repr

/-- Which of the three fixed provider URLs contain maclookup.app: the
first is the plain-text macvendors endpoint, the other two the JSON
maclookup endpoints. -/
def apiIsMaclookup : List Bool := [false, true, true]

namespace Main

/-- Embedding of the parse_manufacturer_response helper of main.py. -/
def parse_manufacturer_response (isMaclookup : Bool) (json : JsonResult)
    (text : String) : String :=
  if isMaclookup then
    match json with
    | .dict company companyName => pyOr company (pyOr companyName "")
    | .notDict => pyStrip text
    | .invalid => pyStrip text
  else
    pyStrip text

/-- The provider loop of lookup_manufacturer: walk the providers in
order, skip transport failures and non-200 replies, stop at the first
parsed body that is non-empty, has no case-sensitive Not Found
substring, and no case-insensitive error substring. Also counts the
provider calls issued. -/
def tryApis : List (Bool × ProviderOutcome) → Option String × Nat
  | [] => (none, 0)
  | (isM, outcome) :: rest =>
    match outcome with
    | .transportErr =>
      let r := tryApis rest
      (r.1, r.2 + 1)
    | .reply statusCode json text =>
      if statusCode = 200 then
        let manufacturer := parse_manufacturer_response isM json text
        if manufacturer ≠ "" ∧ strContains manufacturer "Not Found" = false ∧
            strContains (pyLower manufacturer) "error" = false then
          (some manufacturer, 1)
        else
          let r := tryApis rest
          (r.1, r.2 + 1)
      else
        let r := tryApis rest
        (r.1, r.2 + 1)

end Main

/-- Process state shared by the lookup tasks: the record store plus the
process-local pending_lookups set, kept as a duplicate-free list. -/
structure LookupState where
  store : Store
  pending : List String
deriving DecidableEq, Repr

/-- Result of one run of lookup_manufacturer: the new process state and
the number of provider calls issued. -/
structure LookupRun where
  state : LookupState
  calls : Nat
deriving DecidableEq, Repr

namespace Main

/-- Embedding of lookup_manufacturer from main.py. The outcomes list
supplies one ProviderOutcome per provider URL; clientFail = true models
a transport exception raised while setting up the HTTP client, the only
way an httpx exception reaches the outer handler that persists status
error. The finally clause is the unconditional filter of the mac out of
the pending set. -/
def lookup_manufacturer (st : LookupState) (mac : String)
    (outcomes : List ProviderOutcome) (clientFail : Bool) (now : Nat) : LookupRun :=
  if mac ∈ st.pending then ⟨st, 0⟩
  else if Database.needs_manufacturer_lookup st.store mac now = false then ⟨st, 0⟩
  else
    let pendingAdded := if mac ∈ st.pending then st.pending else mac :: st.pending
    let storePending := Database.set_manufacturer st.store mac none "pending" now
    let result :=
      if clientFail then
        (Database.set_manufacturer storePending mac none "error" now, 0)
      else
        match tryApis (apiIsMaclookup.zip outcomes) with
        | (some manufacturer, calls) =>
          (Database.set_manufacturer storePending mac (some manufacturer) "found" now, calls)
        | (none, calls) =>
          (Database.set_manufacturer storePending mac (some "Unknown") "unknown" now, calls)
    ⟨⟨result.1, pendingAdded.filter (fun x => decide (x ≠ mac))⟩, result.2⟩

end Main

/-- Invariant of C8: every Found row carries a non-empty label. -/
def StoreInv (s : Store) : Prop :=
  ∀ d ∈ s, d.manufacturer_status = .found → optStrTruthy d.manufacturer = true

instance (s : Store) : Decidable (StoreInv s) := by
  unfold StoreInv
  infer_instance

/-- Reply of the manufacturer endpoint: the JSON manufacturer value and
whether a background lookup task was scheduled. -/
structure ManufacturerReply where
  manufacturer : String
  scheduled : Bool
deriving DecidableEq, Repr

/-- A dispatched notification, from notifications.py. -/
inductive Notif
  | unknownDevice (mac ip host : String)
  | trackedDevice (name mac ip : String)
deriving DecidableEq, Repr

/-- Body of a POST to the events endpoint: notJson models a body that
request.json() rejects; json carries the four fields read from the
parsed dict, none when the key is absent. -/
inductive ReqBody
  | notJson
  | json (action : Option String) (mac : Option String)
         (ip : Option String) (host : Option String)
deriving DecidableEq, Repr

namespace Main

/-- Embedding of the GET manufacturer route handler of main.py. -/
def get_manufacturer (store : Store) (pending : List String) (mac : String)
    (now : Nat) : ManufacturerReply :=
  match Database.get_manufacturer store mac with
  | some manufacturer => ⟨manufacturer, false⟩
  | none =>
    if Database.needs_manufacturer_lookup store mac now = true ∧ mac ∉ pending then
      ⟨"Loading...", true⟩
    else
      ⟨"Loading...", false⟩

/-- Embedding of process_device_event from main.py, threading the store
and the list of dispatched notifications. -/
def process_device_event (store : Store) (notifs : List Notif)
    (mac ip host : String) (now : Nat) : Store × List Notif :=
  match findDevice store mac with
  | none =>
    (Database.add_device store mac (if host = "" then none else some host) now,
     notifs ++ [.unknownDevice mac ip host])
  | some device =>
    let store₁ := Database.add_device store mac
      (if host ≠ "" then some host else device.name) now
    if device.notify = true then
      (store₁, notifs ++ [.trackedDevice
        (pyOr device.name (if host ≠ "" then host else "Unknown")) mac ip])
    else
      (store₁, notifs)

/-- Embedding of the receive_event route handler of main.py. The first
component of the result is the HTTP status code; procRaises = true
models an exception thrown while processing the event, swallowed by the
broad except clause. -/
def receive_event (contentType : String) (body : ReqBody) (procRaises : Bool)
    (store : Store) (notifs : List Notif) (now : Nat) :
    Nat × Store × List Notif :=
  if contentType.startsWith "application/json" = false then
    (204, store, notifs)
  else
    match body with
    | .notJson => (204, store, notifs)
    | .json action mac ip host =>
      if action = some "assigned" ∧ optStrTruthy mac = true then
        if procRaises then
          (204, store, notifs)
        else
          let r := process_device_event store notifs (mac.getD "") (ip.getD "")
            (pyStrip (pyOr host "")) now
          (204, r.1, r.2)
      else
        (204, store, notifs)

end Main

/-- A found row of findDevice carries the searched mac. -/
theorem findDevice_mac {s : Store} {mac : String} {d : Device}
    (h : findDevice s mac = some d) : d.mac = mac := by
  have := List.find?_some h
  simpa using this

/-- After an upsert, looking up the mac of the inserted row yields it. -/
theorem findDevice_upsert_self (s : Store) (d : Device) :
    findDevice (upsertDevice s d) d.mac = some d := by
  induction s with
  | nil => simp [upsertDevice, findDevice, List.find?]
  | cons d₀ rest ih =>
    by_cases h : d₀.mac = d.mac
    · simp [upsertDevice, h, findDevice, List.find?]
    · simpa [upsertDevice, h, findDevice, List.find?] using ih

/-- An upsert leaves lookups of every other mac unchanged. -/
theorem findDevice_upsert_other (s : Store) (d : Device) (mac : String)
    (h : mac ≠ d.mac) :
    findDevice (upsertDevice s d) mac = findDevice s mac := by
  have hd : d.mac ≠ mac := fun e => h e.symm
  induction s with
  | nil => simp [upsertDevice, findDevice, List.find?, hd]
  | cons d₀ rest ih =>
    by_cases h₀ : d₀.mac = d.mac
    · have h₀m : d₀.mac ≠ mac := by rw [h₀]; exact hd
      simp [upsertDevice, h₀, findDevice, List.find?, hd, h₀m]
    · by_cases h₁ : d₀.mac = mac
      · simp [upsertDevice, h₀, findDevice, List.find?, h₁, h]
      · simpa [upsertDevice, h₀, findDevice, List.find?, h₁] using ih

/-- Every row of an upserted store is the inserted row or an old row. -/
theorem mem_upsertDevice {s : Store} {d x : Device}
    (h : x ∈ upsertDevice s d) : x = d ∨ x ∈ s := by
  induction s with
  | nil =>
    simp only [upsertDevice, List.mem_singleton] at h
    exact Or.inl h
  | cons d₀ rest ih =>
    by_cases h₀ : d₀.mac = d.mac
    · simp only [upsertDevice, if_pos h₀, List.mem_cons] at h
      rcases h with h | h
      · exact Or.inl h
      · exact Or.inr (List.mem_cons_of_mem _ h)
    · simp only [upsertDevice, if_neg h₀, List.mem_cons] at h
      rcases h with h | h
      · exact Or.inr (h ▸ List.mem_cons_self _ _)
      · rcases ih h with h | h
        · exact Or.inl h
        · exact Or.inr (List.mem_cons_of_mem _ h)

/-- Looking up the written mac after set_manufacturer with a valid
status yields the updated row. -/
theorem findDevice_set_manufacturer (s : Store) (mac : String)
    (m : Option String) (status : String) (now : Nat) (st : ManufacturerStatus)
    (hst : parseStatus status = some st) :
    findDevice (Database.set_manufacturer s mac m status now) mac =
      some { (findDevice s mac).getD { mac := mac } with
             manufacturer := m,
             manufacturer_status := st,
             manufacturer_last_attempt := some now } := by
  unfold Database.set_manufacturer
  rw [hst]
  have hmac : ((findDevice s mac).getD { mac := mac }).mac = mac := by
    cases hf : findDevice s mac with
    | none => rfl
    | some d => simpa using findDevice_mac hf
  have := findDevice_upsert_self s
    { (findDevice s mac).getD { mac := mac } with
      manufacturer := m, manufacturer_status := st,
      manufacturer_last_attempt := some now }
  simpa [hmac] using this

/-- C6: needs_manufacturer_lookup follows the decision table of the spec
on the non-Pending cases: missing record gives true, Found with a
non-empty label gives false, Unknown gives false, and Error with a
recorded last attempt gives true exactly when more than 300 seconds have
elapsed. -/
theorem needs_lookup_decision_table (s : Store) (mac : String) (now : Nat) :
    (findDevice s mac = none → Database.needs_manufacturer_lookup s mac now = true) ∧
    (∀ d, findDevice s mac = some d → d.manufacturer_status = .found →
      optStrTruthy d.manufacturer = true →
      Database.needs_manufacturer_lookup s mac now = false) ∧
    (∀ d, findDevice s mac = some d → d.manufacturer_status = .unknown →
      Database.needs_manufacturer_lookup s mac now = false) ∧
    (∀ d la, findDevice s mac = some d → d.manufacturer_status = .error →
      d.manufacturer_last_attempt = some la →
      (Database.needs_manufacturer_lookup s mac now = true ↔ now - la > 300)) := by
  refine ⟨?_, ?_, ?_, ?_⟩
  · intro h
    simp [Database.needs_manufacturer_lookup, h]
  · intro d hd hst hm
    simp [Database.needs_manufacturer_lookup, hd, hst, hm]
  · intro d hd hst
    simp [Database.needs_manufacturer_lookup, hd, hst, optStrTruthy]
  · intro d la hd hst hla
    simp [Database.needs_manufacturer_lookup, hd, hst, hla, optStrTruthy]

/-- Witness for C6 on a concrete Error row attempted 301 seconds ago. -/
theorem needs_lookup_decision_table_witness :
    Database.needs_manufacturer_lookup
      [{ mac := "aa:bb:cc:dd:ee:ff", manufacturer_status := .error,
         manufacturer_last_attempt := some 100 }] "aa:bb:cc:dd:ee:ff" 401 = true := by
  have h := (needs_lookup_decision_table
    [{ mac := "aa:bb:cc:dd:ee:ff", manufacturer_status := .error,
       manufacturer_last_attempt := some 100 }] "aa:bb:cc:dd:ee:ff" 401).2.2.2
    { mac := "aa:bb:cc:dd:ee:ff", manufacturer_status := .error,
      manufacturer_last_attempt := some 100 } 100 (by decide) rfl rfl
  exact h.mpr (by decide)

/-- C1 counterexample: a Pending row whose last attempt is the current
instant (elapsed 0 seconds, well inside the 300 second cooldown) still
gets needs_manufacturer_lookup = true, where the claim demands false. -/
theorem needs_lookup_pending_no_cooldown_counterexample :
    (1000 - 1000 ≤ 300) ∧
    Database.needs_manufacturer_lookup
      [{ mac := "aa:bb:cc:dd:ee:ff", manufacturer_status := .pending,
         manufacturer_last_attempt := some 1000 }] "aa:bb:cc:dd:ee:ff" 1000 = true := by
  constructor
  · decide
  · decide

/-- C1 amended: for a Pending row, needs_manufacturer_lookup returns
true whatever the last-attempt timestamp and the current time; the
300-second cooldown test is applied only to Error. -/
theorem needs_lookup_pending_always_true (s : Store) (mac : String) (now : Nat)
    (d : Device) (hd : findDevice s mac = some d)
    (hst : d.manufacturer_status = .pending) :
    Database.needs_manufacturer_lookup s mac now = true := by
  simp [Database.needs_manufacturer_lookup, hd, hst]

/-- Witness for the amended C1 at a concrete Pending row. -/
theorem needs_lookup_pending_always_true_witness :
    Database.needs_manufacturer_lookup
      [{ mac := "aa:bb:cc:dd:ee:ff", manufacturer_status := .pending,
         manufacturer_last_attempt := some 500 }] "aa:bb:cc:dd:ee:ff" 510 = true :=
  needs_lookup_pending_always_true _ _ 510
    { mac := "aa:bb:cc:dd:ee:ff", manufacturer_status := .pending,
      manufacturer_last_attempt := some 500 } (by decide) rfl

/-- C10: set_manufacturer called with a status string outside the four
recognised values is a complete no-op on the store. -/
theorem set_manufacturer_invalid_status_noop (s : Store) (mac : String)
    (m : Option String) (status : String) (now : Nat)
    (h₁ : status ≠ "pending") (h₂ : status ≠ "found")
    (h₃ : status ≠ "unknown") (h₄ : status ≠ "error") :
    Database.set_manufacturer s mac m status now = s := by
  unfold Database.set_manufacturer
  have : parseStatus status = none := by
    unfold parseStatus
    split
    · exact absurd rfl h₁
    · exact absurd rfl h₂
    · exact absurd rfl h₃
    · exact absurd rfl h₄
    · rfl
  rw [this]

/-- Witness for C10 at a concrete invalid status string. -/
theorem set_manufacturer_invalid_status_noop_witness :
    Database.set_manufacturer
      [{ mac := "aa:bb:cc:dd:ee:ff" }] "aa:bb:cc:dd:ee:ff" (some "Acme") "bogus" 7 =
      [{ mac := "aa:bb:cc:dd:ee:ff" }] :=
  set_manufacturer_invalid_status_noop _ _ _ _ 7
    (by decide) (by decide) (by decide) (by decide)

/-- A label returned by the provider loop is never the empty string,
because the success test requires a non-empty parsed body. -/
theorem tryApis_some_ne_empty :
    ∀ (l : List (Bool × ProviderOutcome)) (m : String),
      (Main.tryApis l).1 = some m → m ≠ "" := by
  intro l
  induction l with
  | nil => intro m h; simp [Main.tryApis] at h
  | cons p rest ih =>
    intro m h
    obtain ⟨isM, outcome⟩ := p
    cases outcome with
    | transportErr =>
      simp only [Main.tryApis] at h
      exact ih m h
    | reply code json text =>
      simp only [Main.tryApis] at h
      split at h
      · split at h
        · rename_i hcond
          simp only at h
          injection h with h
          exact h ▸ hcond.1
        · exact ih m h
      · exact ih m h

/-- When every provider raises at the transport layer, the provider loop
returns no label and one call was issued per provider. -/
theorem tryApis_all_transport :
    ∀ (l : List (Bool × ProviderOutcome)),
      (∀ p ∈ l, p.2 = ProviderOutcome.transportErr) →
      Main.tryApis l = (none, l.length) := by
  intro l
  induction l with
  | nil => intro _; rfl
  | cons p rest ih =>
    intro h
    obtain ⟨isM, outcome⟩ := p
    have hp : outcome = ProviderOutcome.transportErr :=
      h (isM, outcome) (List.mem_cons_self _ _)
    subst hp
    simp only [Main.tryApis, ih (fun q hq => h q (List.mem_cons_of_mem _ hq)),
      List.length_cons]

/-- Unfolding step of the provider loop: a 200 reply whose parsed body
fails the success test advances to the remaining providers. -/
theorem tryApis_cons_reject (isM : Bool) (js : JsonResult) (tx : String)
    (rest : List (Bool × ProviderOutcome))
    (hfail : ¬(Main.parse_manufacturer_response isM js tx ≠ "" ∧
      strContains (Main.parse_manufacturer_response isM js tx) "Not Found" = false ∧
      strContains (pyLower (Main.parse_manufacturer_response isM js tx)) "error" = false)) :
    Main.tryApis ((isM, ProviderOutcome.reply 200 js tx) :: rest) =
      ((Main.tryApis rest).1, (Main.tryApis rest).2 + 1) := by
  simp only [Main.tryApis]
  rw [if_pos trivial]
  rw [if_neg hfail]

/-- Unfolding step of the provider loop: a 200 reply whose parsed body
passes the success test stops the loop with that label. -/
theorem tryApis_cons_success (isM : Bool) (js : JsonResult) (tx : String)
    (rest : List (Bool × ProviderOutcome))
    (hok : Main.parse_manufacturer_response isM js tx ≠ "" ∧
      strContains (Main.parse_manufacturer_response isM js tx) "Not Found" = false ∧
      strContains (pyLower (Main.parse_manufacturer_response isM js tx)) "error" = false) :
    Main.tryApis ((isM, ProviderOutcome.reply 200 js tx) :: rest) =
      (some (Main.parse_manufacturer_response isM js tx), 1) := by
  simp only [Main.tryApis]
  rw [if_pos trivial]
  rw [if_pos hok]

/-- set_manufacturer with a status that parses to something other than
Found preserves the Found-implies-non-empty-label invariant. -/
theorem storeInv_set_not_found {s : Store} {mac : String} {m : Option String}
    {now : Nat} (status : String) (st : ManufacturerStatus)
    (hps : parseStatus status = some st) (hne : st ≠ .found)
    (hinv : StoreInv s) :
    StoreInv (Database.set_manufacturer s mac m status now) := by
  unfold Database.set_manufacturer
  rw [hps]
  intro x hx hxf
  rcases mem_upsertDevice hx with rfl | hx
  · exact absurd hxf hne
  · exact hinv x hx hxf

/-- set_manufacturer with a truthy label preserves the
Found-implies-non-empty-label invariant whatever the status. -/
theorem storeInv_set_truthy {s : Store} {mac : String} {m : Option String}
    {now : Nat} (status : String)
    (hm : optStrTruthy m = true) (hinv : StoreInv s) :
    StoreInv (Database.set_manufacturer s mac m status now) := by
  unfold Database.set_manufacturer
  cases hps : parseStatus status with
  | none => exact hinv
  | some st =>
    intro x hx hxf
    rcases mem_upsertDevice hx with rfl | hx
    · exact hm
    · exact hinv x hx hxf

/-- C9: the in-flight de-duplication guard. A call for a mac already in
the pending set changes nothing, issues no provider call and returns at
once; a call for a mac not in the pending set leaves it out of the
pending set on every exit path, the client-failure path included. -/
theorem inflight_guard_discipline (st : LookupState) (mac : String)
    (outcomes : List ProviderOutcome) (clientFail : Bool) (now : Nat) :
    (mac ∈ st.pending →
      Main.lookup_manufacturer st mac outcomes clientFail now = ⟨st, 0⟩) ∧
    (mac ∉ st.pending →
      mac ∉ (Main.lookup_manufacturer st mac outcomes clientFail now).state.pending) := by
  constructor
  · intro h
    unfold Main.lookup_manufacturer
    rw [if_pos h]
  · intro h
    unfold Main.lookup_manufacturer
    rw [if_neg h]
    by_cases hn : Database.needs_manufacturer_lookup st.store mac now = false
    · rw [if_pos hn]; exact h
    · rw [if_neg hn]
      dsimp only
      rw [if_neg h]
      simp [List.mem_filter]

/-- Witness for C9 on an empty process state. -/
theorem inflight_guard_discipline_witness :
    "aa:bb:cc:dd:ee:ff" ∉
      (Main.lookup_manufacturer ⟨[], []⟩ "aa:bb:cc:dd:ee:ff" [] false 0).state.pending :=
  (inflight_guard_discipline ⟨[], []⟩ "aa:bb:cc:dd:ee:ff" [] false 0).2
    (List.not_mem_nil _)

/-- C8 counterexample: set_manufacturer called directly with status
found and no label turns a store satisfying the invariant into one that
violates it, so set_manufacturer alone does not preserve it. -/
theorem found_invariant_set_manufacturer_counterexample :
    StoreInv [] ∧
    ¬ StoreInv (Database.set_manufacturer [] "aa:bb:cc:dd:ee:ff" none "found" 5) := by
  constructor
  · decide
  · decide

/-- C8 amended: the lookup pipeline preserves the invariant that a Found
row carries a non-empty label, because its success branch only persists
a parsed body that passed the non-empty test; set_manufacturer by itself
does not enforce the invariant. -/
theorem lookup_preserves_found_invariant (st : LookupState) (mac : String)
    (outcomes : List ProviderOutcome) (clientFail : Bool) (now : Nat)
    (hinv : StoreInv st.store) :
    StoreInv (Main.lookup_manufacturer st mac outcomes clientFail now).state.store := by
  unfold Main.lookup_manufacturer
  by_cases hp : mac ∈ st.pending
  · rw [if_pos hp]; exact hinv
  · rw [if_neg hp]
    by_cases hn : Database.needs_manufacturer_lookup st.store mac now = false
    · rw [if_pos hn]; exact hinv
    · rw [if_neg hn]
      dsimp only
      have hpend : StoreInv (Database.set_manufacturer st.store mac none "pending" now) :=
        storeInv_set_not_found "pending" .pending (by decide) (by decide) hinv
      split
      · exact storeInv_set_not_found "error" .error (by decide) (by decide) hpend
      · split
        · rename_i manufacturer calls htry
          have hne : manufacturer ≠ "" :=
            tryApis_some_ne_empty (apiIsMaclookup.zip outcomes) manufacturer
              (by rw [htry])
          exact storeInv_set_truthy "found" (by simpa [optStrTruthy] using hne) hpend
        · exact storeInv_set_not_found "unknown" .unknown (by decide) (by decide) hpend

/-- Witness for the amended C8 on a concrete run. -/
theorem lookup_preserves_found_invariant_witness :
    StoreInv (Main.lookup_manufacturer ⟨[], []⟩ "aa:bb:cc:dd:ee:ff"
      [.reply 200 .invalid "Acme Corp", .transportErr, .transportErr]
      false 5).state.store :=
  lookup_preserves_found_invariant ⟨[], []⟩ "aa:bb:cc:dd:ee:ff"
    [.reply 200 .invalid "Acme Corp", .transportErr, .transportErr]
    false 5 (by decide)

/-- Store after a lookup run that passes both guards with no client
failure: pending is written first, then the provider-loop outcome. -/
theorem lookup_store_noClientFail (st : LookupState) (mac : String)
    (outcomes : List ProviderOutcome) (now : Nat)
    (hp : mac ∉ st.pending)
    (hn : Database.needs_manufacturer_lookup st.store mac now = true) :
    (Main.lookup_manufacturer st mac outcomes false now).state.store =
      match (Main.tryApis (apiIsMaclookup.zip outcomes)).1 with
      | some m => Database.set_manufacturer
          (Database.set_manufacturer st.store mac none "pending" now)
          mac (some m) "found" now
      | none => Database.set_manufacturer
          (Database.set_manufacturer st.store mac none "pending" now)
          mac (some "Unknown") "unknown" now := by
  unfold Main.lookup_manufacturer
  rw [if_neg hp, if_neg (by rw [hn]; simp)]
  cases htry : Main.tryApis (apiIsMaclookup.zip outcomes) with
  | mk om k => cases om <;> rfl

/-- Store after a lookup run that passes both guards and hits the
client failure path: pending is written, then status error. -/
theorem lookup_store_clientFail (st : LookupState) (mac : String)
    (outcomes : List ProviderOutcome) (now : Nat)
    (hp : mac ∉ st.pending)
    (hn : Database.needs_manufacturer_lookup st.store mac now = true) :
    (Main.lookup_manufacturer st mac outcomes true now).state.store =
      Database.set_manufacturer
        (Database.set_manufacturer st.store mac none "pending" now)
        mac none "error" now := by
  unfold Main.lookup_manufacturer
  rw [if_neg hp, if_neg (by rw [hn]; simp)]
  rfl

/-- Row written when the provider loop found no label. -/
theorem lookup_none_gives_unknown (st : LookupState) (mac : String)
    (outcomes : List ProviderOutcome) (now : Nat)
    (hp : mac ∉ st.pending)
    (hn : Database.needs_manufacturer_lookup st.store mac now = true)
    (hnone : (Main.tryApis (apiIsMaclookup.zip outcomes)).1 = none) :
    findDevice (Main.lookup_manufacturer st mac outcomes false now).state.store mac =
      some { ((findDevice (Database.set_manufacturer st.store mac none "pending" now) mac).getD
                { mac := mac }) with
             manufacturer := some "Unknown",
             manufacturer_status := ManufacturerStatus.unknown,
             manufacturer_last_attempt := some now } := by
  rw [lookup_store_noClientFail st mac outcomes now hp hn, hnone]
  exact findDevice_set_manufacturer _ mac (some "Unknown") "unknown" now .unknown (by decide)

/-- Row written when the provider loop found a label. -/
theorem lookup_some_gives_found (st : LookupState) (mac : String)
    (outcomes : List ProviderOutcome) (now : Nat) (m : String)
    (hp : mac ∉ st.pending)
    (hn : Database.needs_manufacturer_lookup st.store mac now = true)
    (hsome : (Main.tryApis (apiIsMaclookup.zip outcomes)).1 = some m) :
    findDevice (Main.lookup_manufacturer st mac outcomes false now).state.store mac =
      some { ((findDevice (Database.set_manufacturer st.store mac none "pending" now) mac).getD
                { mac := mac }) with
             manufacturer := some m,
             manufacturer_status := ManufacturerStatus.found,
             manufacturer_last_attempt := some now } := by
  rw [lookup_store_noClientFail st mac outcomes now hp hn, hsome]
  exact findDevice_set_manufacturer _ mac (some m) "found" now .found (by decide)

/-- Row written on the client failure path. -/
theorem lookup_clientFail_gives_error (st : LookupState) (mac : String)
    (outcomes : List ProviderOutcome) (now : Nat)
    (hp : mac ∉ st.pending)
    (hn : Database.needs_manufacturer_lookup st.store mac now = true) :
    findDevice (Main.lookup_manufacturer st mac outcomes true now).state.store mac =
      some { ((findDevice (Database.set_manufacturer st.store mac none "pending" now) mac).getD
                { mac := mac }) with
             manufacturer := none,
             manufacturer_status := ManufacturerStatus.error,
             manufacturer_last_attempt := some now } := by
  rw [lookup_store_clientFail st mac outcomes now hp hn]
  exact findDevice_set_manufacturer _ mac none "error" now .error (by decide)

/-- C2 counterexample: with every provider answering HTTP 429 the
resolution persists status unknown, not the error status the claim
demands, after exhausting all three providers. -/
theorem rate_limited_429_counterexample :
    (findDevice (Main.lookup_manufacturer ⟨[], []⟩ "aa:bb:cc:dd:ee:ff"
      [.reply 429 .invalid "", .reply 429 .invalid "", .reply 429 .invalid ""]
      false 50).state.store "aa:bb:cc:dd:ee:ff").map Device.manufacturer_status =
      some ManufacturerStatus.unknown ∧
    ManufacturerStatus.unknown ≠ ManufacturerStatus.error := by
  exact ⟨by decide, by decide⟩

/-- C2 amended: a 429 reply is skipped like any non-200 reply, so when
no provider yields a label the resolution persists status unknown, and
the record is then never again lookup-eligible, at any later time. -/
theorem rate_limited_429_ends_unknown (st : LookupState) (mac : String)
    (outcomes : List ProviderOutcome) (now later : Nat)
    (hp : mac ∉ st.pending)
    (hn : Database.needs_manufacturer_lookup st.store mac now = true)
    (_h429 : ∃ o ∈ outcomes, ∃ js tx, o = ProviderOutcome.reply 429 js tx)
    (hnone : (Main.tryApis (apiIsMaclookup.zip outcomes)).1 = none) :
    (findDevice (Main.lookup_manufacturer st mac outcomes false now).state.store mac).map
      Device.manufacturer_status = some ManufacturerStatus.unknown ∧
    Database.needs_manufacturer_lookup
      (Main.lookup_manufacturer st mac outcomes false now).state.store mac later = false := by
  have hfind := lookup_none_gives_unknown st mac outcomes now hp hn hnone
  constructor
  · rw [hfind]; rfl
  · unfold Database.needs_manufacturer_lookup
    rw [hfind]
    simp

/-- Witness for the amended C2 on a concrete all-429 run. -/
theorem rate_limited_429_ends_unknown_witness :
    (findDevice (Main.lookup_manufacturer ⟨[], []⟩ "aa:bb:cc:dd:ee:ff"
        [.reply 429 .invalid "", .reply 429 .invalid "", .reply 429 .invalid ""]
        false 5).state.store "aa:bb:cc:dd:ee:ff").map Device.manufacturer_status =
      some ManufacturerStatus.unknown ∧
    Database.needs_manufacturer_lookup
      (Main.lookup_manufacturer ⟨[], []⟩ "aa:bb:cc:dd:ee:ff"
        [.reply 429 .invalid "", .reply 429 .invalid "", .reply 429 .invalid ""]
        false 5).state.store "aa:bb:cc:dd:ee:ff" 1000 = false :=
  rate_limited_429_ends_unknown ⟨[], []⟩ "aa:bb:cc:dd:ee:ff"
    [.reply 429 .invalid "", .reply 429 .invalid "", .reply 429 .invalid ""] 5 1000
    (List.not_mem_nil _) (by decide)
    ⟨.reply 429 .invalid "", by decide, .invalid, "", rfl⟩ (by decide)

/-- C4 counterexample: when every provider fails at the transport layer
the resolution persists status unknown, not the error the claim
demands. -/
theorem transport_failure_counterexample :
    (findDevice (Main.lookup_manufacturer ⟨[], []⟩ "aa:bb:cc:dd:ee:ff"
      [.transportErr, .transportErr, .transportErr]
      false 5).state.store "aa:bb:cc:dd:ee:ff").map Device.manufacturer_status =
      some ManufacturerStatus.unknown ∧
    ManufacturerStatus.unknown ≠ ManufacturerStatus.error := by
  exact ⟨by decide, by decide⟩

/-- C4 amended: per-provider transport failures are skipped, so a run
in which every provider raises at the transport layer, or in which the
provider loop finds no label at all, persists status unknown; status
error is persisted exactly on the client failure path outside the
provider loop. Negative provider replies therefore never yield error. -/
theorem error_status_source (st : LookupState) (mac : String)
    (outcomes : List ProviderOutcome) (now : Nat)
    (hp : mac ∉ st.pending)
    (hn : Database.needs_manufacturer_lookup st.store mac now = true) :
    ((∀ o ∈ outcomes, o = ProviderOutcome.transportErr) →
      (findDevice (Main.lookup_manufacturer st mac outcomes false now).state.store mac).map
        Device.manufacturer_status = some ManufacturerStatus.unknown) ∧
    ((Main.tryApis (apiIsMaclookup.zip outcomes)).1 = none →
      (findDevice (Main.lookup_manufacturer st mac outcomes false now).state.store mac).map
        Device.manufacturer_status = some ManufacturerStatus.unknown) ∧
    ((findDevice (Main.lookup_manufacturer st mac outcomes true now).state.store mac).map
      Device.manufacturer_status = some ManufacturerStatus.error) := by
  refine ⟨?_, ?_, ?_⟩
  · intro hall
    have hz : ∀ p ∈ apiIsMaclookup.zip outcomes, p.2 = ProviderOutcome.transportErr := by
      intro p hpz
      obtain ⟨pb, po⟩ := p
      exact hall po (List.of_mem_zip hpz).2
    have hnone : (Main.tryApis (apiIsMaclookup.zip outcomes)).1 = none := by
      rw [tryApis_all_transport _ hz]
    rw [lookup_none_gives_unknown st mac outcomes now hp hn hnone]; rfl
  · intro hnone
    rw [lookup_none_gives_unknown st mac outcomes now hp hn hnone]; rfl
  · rw [lookup_clientFail_gives_error st mac outcomes now hp hn]; rfl

/-- Witness for the amended C4 on concrete runs. -/
theorem error_status_source_witness :
    (findDevice (Main.lookup_manufacturer ⟨[], []⟩ "aa:bb:cc:dd:ee:ff"
        [.transportErr, .transportErr, .transportErr] false 5).state.store
        "aa:bb:cc:dd:ee:ff").map Device.manufacturer_status =
      some ManufacturerStatus.unknown ∧
    (findDevice (Main.lookup_manufacturer ⟨[], []⟩ "aa:bb:cc:dd:ee:ff"
        [.transportErr, .transportErr, .transportErr] true 5).state.store
        "aa:bb:cc:dd:ee:ff").map Device.manufacturer_status =
      some ManufacturerStatus.error :=
  ⟨(error_status_source ⟨[], []⟩ "aa:bb:cc:dd:ee:ff"
      [.transportErr, .transportErr, .transportErr] 5
      (List.not_mem_nil _) (by decide)).1 (by decide),
   (error_status_source ⟨[], []⟩ "aa:bb:cc:dd:ee:ff"
      [.transportErr, .transportErr, .transportErr] 5
      (List.not_mem_nil _) (by decide)).2.2⟩

/-- C5 counterexample: the sentinel match on Not Found is
case-sensitive, so a lowercase not found body from the plain-text
provider is classified as a success and persisted as the label with
status found, where the claim demands a case-insensitive rejection. -/
theorem sentinel_lowercase_counterexample :
    (findDevice (Main.lookup_manufacturer ⟨[], []⟩ "aa:bb:cc:dd:ee:ff"
      [.reply 200 .invalid "not found", .transportErr, .transportErr]
      false 5).state.store "aa:bb:cc:dd:ee:ff").map
      (fun d => (d.manufacturer_status, d.manufacturer)) =
      some (ManufacturerStatus.found, some "not found") := by
  decide

/-- C5 amended: the success test requires a non-empty parsed body with
no case-sensitive Not Found substring and no case-insensitive error
substring; the resolver stops at the first provider passing it and
persists the parsed body with status found. With provider 1 returning
the exact text Not Found and provider 2 returning a JSON company field,
the company value is persisted with status found. -/
theorem sentinel_resolution (c : String) (o₃ : ProviderOutcome)
    (hne : c ≠ "")
    (hnf : strContains c "Not Found" = false)
    (herr : strContains (pyLower c) "error" = false) :
    (findDevice (Main.lookup_manufacturer ⟨[], []⟩ "aa:bb:cc:dd:ee:ff"
        [.reply 200 .invalid "Not Found", .reply 200 (.dict (some c) none) "", o₃]
        false 5).state.store "aa:bb:cc:dd:ee:ff").map
      (fun d => (d.manufacturer_status, d.manufacturer)) =
      some (ManufacturerStatus.found, some c) := by
  have hparse : Main.parse_manufacturer_response true (.dict (some c) none) "" = c := by
    simp [Main.parse_manufacturer_response, pyOr, hne]
  have htry : (Main.tryApis (apiIsMaclookup.zip
      [.reply 200 .invalid "Not Found", .reply 200 (.dict (some c) none) "", o₃])).1 =
      some c := by
    have h1 := tryApis_cons_reject false JsonResult.invalid "Not Found"
      [(true, ProviderOutcome.reply 200 (JsonResult.dict (some c) none) ""), (true, o₃)]
      (by decide)
    have h2 := tryApis_cons_success true (JsonResult.dict (some c) none) ""
      [(true, o₃)]
      (by rw [hparse]; exact ⟨hne, hnf, herr⟩)
    show (Main.tryApis
        [(false, ProviderOutcome.reply 200 JsonResult.invalid "Not Found"),
         (true, ProviderOutcome.reply 200 (JsonResult.dict (some c) none) ""),
         (true, o₃)]).1 = some c
    rw [h1, h2, hparse]
  rw [lookup_some_gives_found ⟨[], []⟩ "aa:bb:cc:dd:ee:ff"
    [.reply 200 .invalid "Not Found", .reply 200 (.dict (some c) none) "", o₃]
    5 c (List.not_mem_nil _) (by decide) htry]
  rfl

/-- Witness for the amended C5: the Acme Corp example of the spec. -/
theorem sentinel_resolution_witness :
    (findDevice (Main.lookup_manufacturer ⟨[], []⟩ "aa:bb:cc:dd:ee:ff"
        [.reply 200 .invalid "Not Found",
         .reply 200 (.dict (some "Acme Corp") none) "", .transportErr]
        false 5).state.store "aa:bb:cc:dd:ee:ff").map
      (fun d => (d.manufacturer_status, d.manufacturer)) =
      some (ManufacturerStatus.found, some "Acme Corp") :=
  sentinel_resolution "Acme Corp" .transportErr (by decide) (by decide) (by decide)

/-- C3 counterexample: for a record in status error whose 300-second
cooldown has long elapsed, the manufacturer endpoint serves the cached
sentinel Unknown and schedules nothing, where the claim demands a
scheduled background lookup and the loading placeholder. -/
theorem manufacturer_endpoint_error_counterexample :
    (1000 - 0 > 300) ∧
    Main.get_manufacturer
      [{ mac := "aa:bb:cc:dd:ee:ff", manufacturer_status := .error,
         manufacturer_last_attempt := some 0 }] [] "aa:bb:cc:dd:ee:ff" 1000 =
      ⟨"Unknown", false⟩ ∧
    ("Unknown" : String) ≠ "Loading..." := by
  exact ⟨by decide, by decide, by decide⟩

/-- C3 amended: the manufacturer endpoint serves the cached label only
for Found with a non-empty label; for Unknown or Error it serves the
sentinel Unknown and schedules nothing; only with no record or a
Pending record does it reply with the loading placeholder, scheduling a
background lookup exactly when the mac is not already in flight. -/
theorem manufacturer_endpoint_behavior (store : Store) (pending : List String)
    (mac : String) (now : Nat) :
    (findDevice store mac = none →
      Main.get_manufacturer store pending mac now =
        ⟨"Loading...", decide (mac ∉ pending)⟩) ∧
    (∀ d, findDevice store mac = some d →
      (∀ label, d.manufacturer_status = .found → d.manufacturer = some label →
        label ≠ "" →
        Main.get_manufacturer store pending mac now = ⟨label, false⟩) ∧
      (d.manufacturer_status = .unknown ∨ d.manufacturer_status = .error →
        Main.get_manufacturer store pending mac now = ⟨"Unknown", false⟩) ∧
      (d.manufacturer_status = .pending →
        Main.get_manufacturer store pending mac now =
          ⟨"Loading...", decide (mac ∉ pending)⟩)) := by
  constructor
  · intro h
    have hdb : Database.get_manufacturer store mac = none := by
      simp [Database.get_manufacturer, h]
    have hn : Database.needs_manufacturer_lookup store mac now = true := by
      simp [Database.needs_manufacturer_lookup, h]
    unfold Main.get_manufacturer
    rw [hdb]
    by_cases hmp : mac ∈ pending
    · rw [if_neg (by simp [hmp])]
      simp [hmp]
    · rw [if_pos ⟨hn, hmp⟩]
      simp [hmp]
  · intro d hd
    refine ⟨?_, ?_, ?_⟩
    · intro label hf hm hlab
      have hdb : Database.get_manufacturer store mac = some label := by
        simp [Database.get_manufacturer, hd, hf, hm, optStrTruthy, hlab]
      unfold Main.get_manufacturer
      rw [hdb]
    · intro hu
      have hdb : Database.get_manufacturer store mac = some "Unknown" := by
        rcases hu with hu | hu <;> simp [Database.get_manufacturer, hd, hu]
      unfold Main.get_manufacturer
      rw [hdb]
    · intro hpstat
      have hdb : Database.get_manufacturer store mac = none := by
        simp [Database.get_manufacturer, hd, hpstat]
      have hn : Database.needs_manufacturer_lookup store mac now = true := by
        simp [Database.needs_manufacturer_lookup, hd, hpstat]
      unfold Main.get_manufacturer
      rw [hdb]
      by_cases hmp : mac ∈ pending
      · rw [if_neg (by simp [hmp])]
        simp [hmp]
      · rw [if_pos ⟨hn, hmp⟩]
        simp [hmp]

/-- Witness for the amended C3: an unseen mac gets the loading
placeholder with a background lookup scheduled. -/
theorem manufacturer_endpoint_behavior_witness :
    Main.get_manufacturer [] [] "aa:bb:cc:dd:ee:ff" 0 = ⟨"Loading...", true⟩ := by
  have h := (manufacturer_endpoint_behavior [] [] "aa:bb:cc:dd:ee:ff" 0).1 rfl
  simpa using h

/-- C7: the events endpoint acknowledges every request with status 204:
a wrong content type, an unparseable body, an uninteresting or
incomplete event, and a processing exception all end in the same empty
success acknowledgement. -/
theorem events_endpoint_always_204 (ct : String) (body : ReqBody) (pr : Bool)
    (store : Store) (notifs : List Notif) (now : Nat) :
    (Main.receive_event ct body pr store notifs now).1 = 204 := by
  unfold Main.receive_event
  split
  · rfl
  · cases body with
    | notJson => rfl
    | json action mac ip host =>
      dsimp only
      split
      · split <;> rfl
      · rfl
